import Mathlib

/-!
Shallow embedding of the two near-duplicate MCP handler modules of the
`access-db-tool` repository (`src/Access_db.py` and `src/access_simple.py`).

The ODBC driver, the filesystem and the environment are external
collaborators; they enter the embedding as explicit parameters:

* `fsExists : String → Bool` models `os.path.exists`;
* a `DriverOutcome α` value models the outcome of the body of the
  `with pyodbc.connect(...)` block: a successful result of type `α`, a
  `pyodbc.Error` whose `str(e)` is the carried message, or any other
  exception (`except Exception`) whose `str(e)` is the carried message;
* `env : String → Option String` models `os.environ.get`;
* `jsonItems : String → Option (List (String × String))` models
  `json.loads(...).items()`, `none` meaning the parse (or `.items()`)
  raised inside the `try` block.

Strings carry the exact message texts of the Python sources (apostrophes
written as the escape `\x27`).  Cell values of a query result are modelled
as `Option String`: `none` is SQL NULL, `some s` a value whose `str()` is
`s`.
-/

set_option autoImplicit false

/-- The characters stripped by Python `str.strip()` (ASCII fragment). -/
def pyIsSpace (c : Char) : Bool :=
  c = ' ' || c = '\t' || c = '\n' || c = '\r' || c = '\x0b' || c = '\x0c'

/-- Python `s.strip()`: drop leading and trailing whitespace. -/
def pyStrip (s : String) : String :=
  String.mk (((s.toList.dropWhile pyIsSpace).reverse.dropWhile pyIsSpace).reverse)

/-- Python `s.upper()` (ASCII semantics, per-character). -/
def pyUpper (s : String) : String :=
  String.mk (s.toList.map Char.toUpper)

/-- Python `s.startswith(pre)`. -/
def pyStartsWith (s pre : String) : Bool :=
  pre.toList.isPrefixOf s.toList

/-- Helper for substring containment, structural on the haystack. -/
def containsAux (needle : List Char) : List Char → Bool
  | [] => needle.isEmpty
  | c :: cs => needle.isPrefixOf (c :: cs) || containsAux needle cs

/-- Python `needle in haystack` on strings. -/
def strContains (haystack needle : String) : Bool :=
  containsAux needle.toList haystack.toList

/-- Outcome of the driver-facing part of a handler (the `with
pyodbc.connect` block): success, `pyodbc.Error`, or any other exception. -/
inductive DriverOutcome (α : Type) where
  | ok (val : α)
  | pyodbcError (msg : String)
  | otherError (msg : String)

/-- What `cursor.execute` + `cursor.description` + `cursor.fetchall` yield:
`description` is `none` when the statement produced no result set,
otherwise the ordered column names; each row is an ordered list of
nullable cells. -/
structure QueryResult where
  description : Option (List String)
  rows : List (List (Option String))

/-- One record of `cursor.columns(table=...)`, restricted to the three
positional fields the code reads: index 3 (column name), index 5 (type
name, rendered via `str`), index 10 (nullability, used for truthiness). -/
structure ColumnInfo where
  name : String
  dataType : String
  nullable : Bool

/-- The guard `sql.strip().upper().startswith("SELECT")`. -/
def isSelectQuery (sql : String) : Bool :=
  pyStartsWith (pyUpper (pyStrip sql)) "SELECT"

/-- `"Error: Only SELECT queries are allowed for security reasons."` -/
def rejectionMsg : String :=
  "Error: Only SELECT queries are allowed for security reasons."

/-- The file-not-found error message, identical in both modules. -/
def fileNotFoundMsg (db_path : String) : String :=
  "Error: Database file not found at " ++ db_path ++
    ". Please ensure the correct database file path is specified."

/-- Advisory appended when `"IM002"` occurs in the driver error text. -/
def imAdvisory : String :=
  "\n\nThe Microsoft Access ODBC driver is not installed or configured properly. " ++
    "Please install the \x27Microsoft Access Database Engine 2016 Redistributable\x27 " ++
    "from Microsoft\x27s website."

/-- Advisory appended (in `query` only) when `"42S02"` occurs in the
driver error text. -/
def tableAdvisory : String :=
  "\n\nThe table referenced in your query does not exist. " ++
    "Use the list_tables tool to see available tables."

/-- Error text of the `except pyodbc.Error` branch of `query`, with the
`IM002` / `42S02` special cases (both modules share this branch). -/
def queryErrMsg (e : String) : String :=
  let error_msg := "Error executing query: " ++ e
  if strContains e "IM002" then error_msg ++ imAdvisory
  else if strContains e "42S02" then error_msg ++ tableAdvisory
  else error_msg

/-- Error text of the `except pyodbc.Error` branch of `describe_table`
(only the `IM002` special case exists there). -/
def describeErrMsg (e : String) : String :=
  let error_msg := "Error describing table: " ++ e
  if strContains e "IM002" then error_msg ++ imAdvisory else error_msg

/-- Rendering of one result cell: `None` becomes the literal `NULL`, any
other value its string conversion (already a string in the model). -/
def fmtCell : Option String → String
  | none => "NULL"
  | some v => v

/-- One formatted result row: cells joined with `" | "`. -/
def rowLine (row : List (Option String)) : String :=
  String.intercalate " | " (row.map fmtCell)

/-- One formatted column line of `describe_table`, identical in both
modules: name, type and Yes/No nullability joined with `" | "`. -/
def describeColLine (c : ColumnInfo) : String :=
  c.name ++ " | " ++ c.dataType ++ " | " ++ (if c.nullable then "Yes" else "No")

namespace AccessDb

/-- The hardcoded fallback path (module constant `default_db_path`). -/
def default_db_path : String :=
  "M:\\Quality System Database\\old\\BE\\2025\\Quality System Database_be 3-2-25 Post Compact.mdb"

/-- The registry entry built by the single-database fallback branch:
`databases["default"] = os.environ.get("ACCESS_DB_PATH", default_db_path)`. -/
def singleFallback (env : String → Option String) : List (String × String) :=
  [("default", (env "ACCESS_DB_PATH").getD default_db_path)]

/-- The module-initialisation block populating `databases`:
parse `ACCESS_DB_CONFIG` as JSON when present and truthy; if that raises,
the `except` branch installs the hardcoded `default_db_path`; if it yields
nothing (absent, empty string, empty mapping), fall back to
`ACCESS_DB_PATH` / `default_db_path` under the name `"default"`. -/
def initDatabases (env : String → Option String)
    (jsonItems : String → Option (List (String × String))) :
    List (String × String) :=
  match env "ACCESS_DB_CONFIG" with
  | none => singleFallback env
  | some cfgStr =>
    if cfgStr = "" then singleFallback env
    else
      match jsonItems cfgStr with
      | none => [("default", default_db_path)]
      | some entries => if entries.isEmpty then singleFallback env else entries

/-- The `ValueError` message of `get_database_path`. -/
def dbNotFoundMsg (databases : List (String × String)) (database_name : String) : String :=
  "Database \x27" ++ database_name ++ "\x27 not found. Available databases: " ++
    String.intercalate ", " (databases.map Prod.fst)

/-- `get_database_path`: look the name up in the registry, raising
`ValueError` (modelled as `Except.error` with `str(e)`) when absent. -/
def get_database_path (databases : List (String × String)) (database_name : String) :
    Except String String :=
  match databases.lookup database_name with
  | none => Except.error (dbNotFoundMsg databases database_name)
  | some p => Except.ok p

/-- `list_databases`: header plus one line per registry entry with an
existence marker. -/
def list_databases (databases : List (String × String)) (fsExists : String → Bool) : String :=
  if databases.isEmpty then "No databases configured."
  else
    String.intercalate "\n"
      (["Available Databases:", "-------------------"] ++
        databases.map (fun p =>
          p.1 ++ ": " ++ p.2 ++ " [" ++ (if fsExists p.2 then "✓" else "✗") ++ "]"))

/-- Error text of the `except pyodbc.Error` branch of `list_tables`. -/
def connectErrMsg (database_name e : String) : String :=
  let error_msg := "Error connecting to database \x27" ++ database_name ++ "\x27: " ++ e
  if strContains e "IM002" then error_msg ++ imAdvisory else error_msg

/-- `list_tables`: resolve the name, check the file, then list the
driver-reported TABLE-type tables, dropping names that start with `MSys`. -/
def list_tables (databases : List (String × String)) (fsExists : String → Bool)
    (driver : DriverOutcome (List String)) (database_name : String) : String :=
  match get_database_path databases database_name with
  | Except.error e => e
  | Except.ok db_path =>
    if fsExists db_path = false then fileNotFoundMsg db_path
    else
      match driver with
      | DriverOutcome.ok tables =>
        let table_names := tables.filter (fun t => !(pyStartsWith t "MSys"))
        if table_names.isEmpty then
          "No tables found in database \x27" ++ database_name ++ "\x27."
        else
          "Tables in database \x27" ++ database_name ++ "\x27:\n" ++
            String.intercalate "\n" table_names
      | DriverOutcome.pyodbcError e => connectErrMsg database_name e
      | DriverOutcome.otherError e => "Error listing tables: " ++ e

/-- The part of `query` after the guards: execute and render, or handle
the driver exceptions. -/
def runSelectQuery (database_name : String) (driver : DriverOutcome QueryResult) : String :=
  match driver with
  | DriverOutcome.ok qr =>
    match qr.description with
    | none => "Query executed successfully, but returned no results."
    | some columns =>
      let column_header := String.intercalate " | " columns
      let separator := String.mk (List.replicate column_header.length '-')
      let header := ["Results from database \x27" ++ database_name ++ "\x27:",
        column_header, separator]
      if qr.rows.isEmpty then
        String.intercalate "\n" (header ++ ["No data found matching your query."])
      else
        String.intercalate "\n" (header ++ qr.rows.map rowLine)
  | DriverOutcome.pyodbcError e => queryErrMsg e
  | DriverOutcome.otherError e => "Error executing query: " ++ e

/-- `query`: resolve the name, check the file, reject non-SELECT input,
then run the statement. -/
def query (databases : List (String × String)) (fsExists : String → Bool)
    (driver : DriverOutcome QueryResult) (sql database_name : String) : String :=
  match get_database_path databases database_name with
  | Except.error e => e
  | Except.ok db_path =>
    if fsExists db_path = false then fileNotFoundMsg db_path
    else if !(isSelectQuery sql) then rejectionMsg
    else runSelectQuery database_name driver

/-- The four fixed header lines of `describe_table`. -/
def describeHeader (table_name database_name : String) : List String :=
  ["Table: " ++ table_name ++ " (Database: " ++ database_name ++ ")",
    String.mk (List.replicate (table_name.length + database_name.length + 20) '-'),
    "Column Name | Data Type | Nullable",
    String.mk (List.replicate 50 '-')]

/-- `describe_table`: resolve the name, check the file, then render one
line per driver-reported column under the fixed header. -/
def describe_table (databases : List (String × String)) (fsExists : String → Bool)
    (driver : DriverOutcome (List ColumnInfo)) (table_name database_name : String) : String :=
  match get_database_path databases database_name with
  | Except.error e => e
  | Except.ok db_path =>
    if fsExists db_path = false then fileNotFoundMsg db_path
    else
      match driver with
      | DriverOutcome.ok column_list =>
        if column_list.isEmpty then
          "Table \x27" ++ table_name ++ "\x27 not found in database \x27" ++
            database_name ++ "\x27 or has no columns."
        else
          String.intercalate "\n"
            (describeHeader table_name database_name ++ column_list.map describeColLine)
      | DriverOutcome.pyodbcError e => describeErrMsg e
      | DriverOutcome.otherError e => "Error describing table: " ++ e

/-- `get_connection_info`: resolve the name, then report path, existence,
the visible ODBC drivers and whether one of them mentions `Access`.
`driversResult = none` models `pyodbc.drivers()` raising (absorbed by the
inner `try`, leaving the list empty). -/
def get_connection_info (databases : List (String × String)) (fsExists : String → Bool)
    (driversResult : Option (List String)) (database_name : String) : String :=
  match get_database_path databases database_name with
  | Except.error e => e
  | Except.ok db_path =>
    let available_drivers := driversResult.getD []
    let db_exists := fsExists db_path
    let info := ["Database Connection Information for \x27" ++ database_name ++ "\x27:",
      "-----------------------------------",
      "Database path: " ++ db_path,
      "Database file exists: " ++ (if db_exists then "Yes" else "No"),
      "",
      "Available ODBC Drivers:",
      "-----------------------------------"]
    let info := info ++
      (if available_drivers.isEmpty then ["No ODBC drivers found."]
        else available_drivers.map (fun d => "- " ++ d))
    let access_driver_available := available_drivers.any (fun d => strContains d "Access")
    let info := info ++ ["",
      "Microsoft Access ODBC driver available: " ++
        (if access_driver_available then "Yes" else "No")]
    let info :=
      if access_driver_available then info
      else info ++ ["", "RECOMMENDATION:",
        "To fix the missing Access driver, please install the \x27Microsoft Access Database Engine 2016 Redistributable\x27",
        "from Microsoft\x27s website: https://www.microsoft.com/en-us/download/details.aspx?id=54920"]
    String.intercalate "\n" info

end AccessDb

namespace AccessSimple

/-- `list_tables`: check the file, then list the driver-reported
TABLE-type tables, dropping names that start with `MSys`. -/
def list_tables (db_path : String) (fsExists : String → Bool)
    (driver : DriverOutcome (List String)) : String :=
  if fsExists db_path = false then fileNotFoundMsg db_path
  else
    match driver with
    | DriverOutcome.ok tables =>
      let table_names := tables.filter (fun t => !(pyStartsWith t "MSys"))
      if table_names.isEmpty then "No tables found in the database."
      else String.intercalate "\n" table_names
    | DriverOutcome.pyodbcError e =>
      let error_msg := "Error connecting to database: " ++ e
      if strContains e "IM002" then error_msg ++ imAdvisory else error_msg
    | DriverOutcome.otherError e => "Error listing tables: " ++ e

/-- The part of `query` after the guards (no per-database title line in
this module). -/
def runSelectQuery (driver : DriverOutcome QueryResult) : String :=
  match driver with
  | DriverOutcome.ok qr =>
    match qr.description with
    | none => "Query executed successfully, but returned no results."
    | some columns =>
      let column_header := String.intercalate " | " columns
      let separator := String.mk (List.replicate column_header.length '-')
      if qr.rows.isEmpty then
        String.intercalate "\n" ([column_header, separator] ++
          ["No data found matching your query."])
      else
        String.intercalate "\n" ([column_header, separator] ++ qr.rows.map rowLine)
  | DriverOutcome.pyodbcError e => queryErrMsg e
  | DriverOutcome.otherError e => "Error executing query: " ++ e

/-- `query`: check the file, reject non-SELECT input, then run. -/
def query (db_path : String) (fsExists : String → Bool)
    (driver : DriverOutcome QueryResult) (sql : String) : String :=
  if fsExists db_path = false then fileNotFoundMsg db_path
  else if !(isSelectQuery sql) then rejectionMsg
  else runSelectQuery driver

/-- The four fixed header lines of `describe_table`. -/
def describeHeader (table_name : String) : List String :=
  ["Table: " ++ table_name,
    String.mk (List.replicate (table_name.length + 7) '-'),
    "Column Name | Data Type | Nullable",
    String.mk (List.replicate 50 '-')]

/-- `describe_table`: check the file, then render one line per
driver-reported column under the fixed header. -/
def describe_table (db_path : String) (fsExists : String → Bool)
    (driver : DriverOutcome (List ColumnInfo)) (table_name : String) : String :=
  if fsExists db_path = false then fileNotFoundMsg db_path
  else
    match driver with
    | DriverOutcome.ok column_list =>
      if column_list.isEmpty then
        "Table \x27" ++ table_name ++ "\x27 not found or has no columns."
      else
        String.intercalate "\n"
          (describeHeader table_name ++ column_list.map describeColLine)
    | DriverOutcome.pyodbcError e => describeErrMsg e
    | DriverOutcome.otherError e => "Error describing table: " ++ e

/-- `get_connection_info`: report path, existence, the visible ODBC
drivers and whether one of them mentions `Access`. -/
def get_connection_info (db_path : String) (fsExists : String → Bool)
    (driversResult : Option (List String)) : String :=
  let available_drivers := driversResult.getD []
  let db_exists := fsExists db_path
  let info := ["Database Connection Information:",
    "-----------------------------------",
    "Database path: " ++ db_path,
    "Database file exists: " ++ (if db_exists then "Yes" else "No"),
    "",
    "Available ODBC Drivers:",
    "-----------------------------------"]
  let info := info ++
    (if available_drivers.isEmpty then ["No ODBC drivers found."]
      else available_drivers.map (fun d => "- " ++ d))
  let access_driver_available := available_drivers.any (fun d => strContains d "Access")
  let info := info ++ ["",
    "Microsoft Access ODBC driver available: " ++
      (if access_driver_available then "Yes" else "No")]
  let info :=
    if access_driver_available then info
    else info ++ ["", "RECOMMENDATION:",
      "To fix the missing Access driver, please install the \x27Microsoft Access Database Engine 2016 Redistributable\x27",
      "from Microsoft\x27s website: https://www.microsoft.com/en-us/download/details.aspx?id=54920"]
  String.intercalate "\n" info

end AccessSimple

/-- Resolving a name present in the registry yields its path. -/
theorem get_database_path_ok (databases : List (String × String))
    (database_name db_path : String)
    (h : databases.lookup database_name = some db_path) :
    AccessDb.get_database_path databases database_name = Except.ok db_path := by
  simp [AccessDb.get_database_path, h]

/-- Resolving a name absent from the registry raises the enumerating
`ValueError`. -/
theorem get_database_path_err (databases : List (String × String))
    (database_name : String)
    (h : databases.lookup database_name = none) :
    AccessDb.get_database_path databases database_name =
      Except.error (AccessDb.dbNotFoundMsg databases database_name) := by
  simp [AccessDb.get_database_path, h]

/-- The file-not-found message is never the SELECT-rejection message (its
fixed parts alone are already longer). -/
theorem fileNotFoundMsg_ne_rejectionMsg (db_path : String) :
    fileNotFoundMsg db_path ≠ rejectionMsg := by
  intro h
  have hlen := congrArg String.length h
  simp only [fileNotFoundMsg, rejectionMsg, String.length_append] at hlen
  have h1 : ("Error: Database file not found at " : String).length = 34 := rfl
  have h2 : (". Please ensure the correct database file path is specified." : String).length = 60 := rfl
  have h3 : ("Error: Only SELECT queries are allowed for security reasons." : String).length = 60 := rfl
  rw [h1, h2, h3] at hlen
  omega

/-- C1: once the database name resolves and the file exists, `query`
returns the rejection message for every input whose trimmed, uppercased
form does not begin with `SELECT`, and does so independently of the
driver outcome (the statement is never executed); every input whose
trimmed, uppercased form does begin with `SELECT` passes the check and
the result is exactly that of executing it.  Both modules. -/
theorem c1_query_select_guard (databases : List (String × String))
    (fsExists : String → Bool) (driver driver2 : DriverOutcome QueryResult)
    (sql database_name db_path : String)
    (hdb : databases.lookup database_name = some db_path)
    (hfs : fsExists db_path = true) :
    (isSelectQuery sql = false →
      AccessDb.query databases fsExists driver sql database_name = rejectionMsg ∧
      AccessDb.query databases fsExists driver sql database_name =
        AccessDb.query databases fsExists driver2 sql database_name ∧
      AccessSimple.query db_path fsExists driver sql = rejectionMsg ∧
      AccessSimple.query db_path fsExists driver sql =
        AccessSimple.query db_path fsExists driver2 sql) ∧
    (isSelectQuery sql = true →
      AccessDb.query databases fsExists driver sql database_name =
        AccessDb.runSelectQuery database_name driver ∧
      AccessSimple.query db_path fsExists driver sql =
        AccessSimple.runSelectQuery driver) := by
  constructor <;> intro hsel <;>
    simp [AccessDb.query, AccessSimple.query, get_database_path_ok _ _ _ hdb, hfs, hsel]

/-- C1 witness: a concrete registry with an existing file; `"DELETE FROM
T"` is rejected and `"  select 1"` passes the check and executes. -/
theorem c1_query_select_guard_witness :
    AccessDb.query [("default", "a.mdb")] (fun _ => true)
      (DriverOutcome.ok ⟨none, []⟩) "DELETE FROM T" "default" = rejectionMsg ∧
    AccessDb.query [("default", "a.mdb")] (fun _ => true)
      (DriverOutcome.ok ⟨none, []⟩) "  select 1" "default" =
      AccessDb.runSelectQuery "default" (DriverOutcome.ok ⟨none, []⟩) :=
  ⟨((c1_query_select_guard [("default", "a.mdb")] (fun _ => true)
      (DriverOutcome.ok ⟨none, []⟩) (DriverOutcome.ok ⟨none, []⟩)
      "DELETE FROM T" "default" "a.mdb" rfl rfl).1 rfl).1,
   ((c1_query_select_guard [("default", "a.mdb")] (fun _ => true)
      (DriverOutcome.ok ⟨none, []⟩) (DriverOutcome.ok ⟨none, []⟩)
      "  select 1" "default" "a.mdb" rfl rfl).2 rfl).1⟩

/-- C2: for a name absent from the registry, all four operations that
take a `database_name` return the `ValueError` text, which enumerates
exactly the currently configured names; none of them raises (each is a
total function into `String`). -/
theorem c2_unknown_database (databases : List (String × String))
    (fsExists : String → Bool) (driverT : DriverOutcome (List String))
    (driverQ : DriverOutcome QueryResult) (driverC : DriverOutcome (List ColumnInfo))
    (driversResult : Option (List String)) (sql table_name database_name : String)
    (hdb : databases.lookup database_name = none) :
    AccessDb.list_tables databases fsExists driverT database_name =
      AccessDb.dbNotFoundMsg databases database_name ∧
    AccessDb.query databases fsExists driverQ sql database_name =
      AccessDb.dbNotFoundMsg databases database_name ∧
    AccessDb.describe_table databases fsExists driverC table_name database_name =
      AccessDb.dbNotFoundMsg databases database_name ∧
    AccessDb.get_connection_info databases fsExists driversResult database_name =
      AccessDb.dbNotFoundMsg databases database_name ∧
    AccessDb.dbNotFoundMsg databases database_name =
      "Database \x27" ++ database_name ++ "\x27 not found. Available databases: " ++
        String.intercalate ", " (databases.map Prod.fst) := by
  refine ⟨?_, ?_, ?_, ?_, rfl⟩ <;>
    simp [AccessDb.list_tables, AccessDb.query, AccessDb.describe_table,
      AccessDb.get_connection_info, get_database_path_err _ _ hdb]

/-- C2 witness: on the registry `[("default", "a.mdb")]` the unknown name
`"missing"` makes `list_tables` return the enumerating message. -/
theorem c2_unknown_database_witness :
    AccessDb.list_tables [("default", "a.mdb")] (fun _ => true)
      (DriverOutcome.ok []) "missing" =
      AccessDb.dbNotFoundMsg [("default", "a.mdb")] "missing" :=
  (c2_unknown_database [("default", "a.mdb")] (fun _ => true) (DriverOutcome.ok [])
    (DriverOutcome.ok ⟨none, []⟩) (DriverOutcome.ok []) none "SELECT 1" "t" "missing" rfl).1

/-- C10: in both modules the file-existence check of `query` precedes the
SELECT check: with the file missing, every input (SELECT or not) gets the
file-not-found message, never the rejection message; the rejection
message for non-SELECT input appears only once the file exists. -/
theorem c10_existence_before_select (databases : List (String × String))
    (fsExists : String → Bool) (driver : DriverOutcome QueryResult)
    (sql database_name db_path : String)
    (hdb : databases.lookup database_name = some db_path) :
    (fsExists db_path = false →
      AccessDb.query databases fsExists driver sql database_name =
        fileNotFoundMsg db_path ∧
      AccessDb.query databases fsExists driver sql database_name ≠ rejectionMsg ∧
      AccessSimple.query db_path fsExists driver sql = fileNotFoundMsg db_path ∧
      AccessSimple.query db_path fsExists driver sql ≠ rejectionMsg) ∧
    (fsExists db_path = true → isSelectQuery sql = false →
      AccessDb.query databases fsExists driver sql database_name = rejectionMsg ∧
      AccessSimple.query db_path fsExists driver sql = rejectionMsg) := by
  constructor
  · intro hfs
    have hdbq : AccessDb.query databases fsExists driver sql database_name =
        fileNotFoundMsg db_path := by
      simp [AccessDb.query, get_database_path_ok _ _ _ hdb, hfs]
    have hsq : AccessSimple.query db_path fsExists driver sql =
        fileNotFoundMsg db_path := by
      simp [AccessSimple.query, hfs]
    refine ⟨hdbq, ?_, hsq, ?_⟩
    · rw [hdbq]; exact fileNotFoundMsg_ne_rejectionMsg db_path
    · rw [hsq]; exact fileNotFoundMsg_ne_rejectionMsg db_path
  · intro hfs hsel
    simp [AccessDb.query, AccessSimple.query, get_database_path_ok _ _ _ hdb, hfs, hsel]

/-- C10 witness: with the file reported missing, the non-SELECT input
`"DELETE FROM T"` still gets the file-not-found message, and with the
file present it gets the rejection message. -/
theorem c10_existence_before_select_witness :
    AccessDb.query [("default", "a.mdb")] (fun _ => false)
      (DriverOutcome.ok ⟨none, []⟩) "DELETE FROM T" "default" =
      fileNotFoundMsg "a.mdb" ∧
    AccessDb.query [("default", "a.mdb")] (fun _ => true)
      (DriverOutcome.ok ⟨none, []⟩) "DELETE FROM T" "default" = rejectionMsg :=
  ⟨((c10_existence_before_select [("default", "a.mdb")] (fun _ => false)
      (DriverOutcome.ok ⟨none, []⟩) "DELETE FROM T" "default" "a.mdb" rfl).1 rfl).1,
   ((c10_existence_before_select [("default", "a.mdb")] (fun _ => true)
      (DriverOutcome.ok ⟨none, []⟩) "DELETE FROM T" "default" "a.mdb" rfl).2 rfl rfl).1⟩

/-- C4: an accepted SELECT with a result-set descriptor and a non-empty
row set renders as the fixed header lines followed by one line per driver
row, in driver order; each row joins its cells with `" | "` in driver
column order, rendering `NULL` cells as the literal `NULL` and every
other cell as its string conversion.  Both modules (the simple module
lacks the per-database title line). -/
theorem c4_query_rendering (databases : List (String × String))
    (fsExists : String → Bool) (columns : List String)
    (rows : List (List (Option String))) (sql database_name db_path : String)
    (hdb : databases.lookup database_name = some db_path)
    (hfs : fsExists db_path = true)
    (hsql : isSelectQuery sql = true)
    (hrows : rows ≠ []) :
    AccessDb.query databases fsExists (DriverOutcome.ok ⟨some columns, rows⟩)
        sql database_name =
      String.intercalate "\n"
        (["Results from database \x27" ++ database_name ++ "\x27:",
          String.intercalate " | " columns,
          String.mk (List.replicate (String.intercalate " | " columns).length '-')] ++
          rows.map rowLine) ∧
    AccessSimple.query db_path fsExists (DriverOutcome.ok ⟨some columns, rows⟩) sql =
      String.intercalate "\n"
        ([String.intercalate " | " columns,
          String.mk (List.replicate (String.intercalate " | " columns).length '-')] ++
          rows.map rowLine) ∧
    fmtCell none = "NULL" ∧
    (∀ v : String, fmtCell (some v) = v) ∧
    (∀ row : List (Option String), rowLine row =
      String.intercalate " | " (row.map fmtCell)) ∧
    (∀ i : Nat, ∀ hi : i < rows.length, ∀ hi2 : i < (rows.map rowLine).length,
      (rows.map rowLine)[i] = rowLine rows[i]) ∧
    (∀ (row : List (Option String)) (j : Nat),
      ∀ hj : j < row.length, ∀ hj2 : j < (row.map fmtCell).length,
      (row.map fmtCell)[j] = fmtCell row[j]) := by
  have hne : rows.isEmpty = false := by
    cases rows with
    | nil => exact absurd rfl hrows
    | cons r rs => rfl
  refine ⟨?_, ?_, rfl, fun v => rfl, fun row => rfl, ?_, ?_⟩
  · simp [AccessDb.query, AccessDb.runSelectQuery,
      get_database_path_ok _ _ _ hdb, hfs, hsql, hne]
  · simp [AccessSimple.query, AccessSimple.runSelectQuery, hfs, hsql, hne]
  · intro i hi hi2
    simp
  · intro row j hj hj2
    simp

/-- C4 witness: a two-column, two-row result with one `NULL` per row
renders exactly as claimed. -/
theorem c4_query_rendering_witness :
    AccessDb.query [("default", "a.mdb")] (fun _ => true)
      (DriverOutcome.ok ⟨some ["a", "b"], [[some "1", none], [none, some "2"]]⟩)
      "SELECT a, b FROM t" "default" =
      String.intercalate "\n"
        (["Results from database \x27default\x27:",
          String.intercalate " | " ["a", "b"],
          String.mk (List.replicate (String.intercalate " | " ["a", "b"]).length '-')] ++
          [[some ("1" : String), none], [none, some "2"]].map rowLine) :=
  (c4_query_rendering [("default", "a.mdb")] (fun _ => true) ["a", "b"]
    [[some "1", none], [none, some "2"]] "SELECT a, b FROM t" "default" "a.mdb"
    rfl rfl rfl (by decide)).1

/-- C5: `list_tables` keeps, in driver order, exactly the driver-reported
TABLE-type names that do not start with `MSys`: no kept name starts with
`MSys`, every non-`MSys` name is kept, and the (non-empty) output joins
the kept names.  Both modules. -/
theorem c5_msys_filtered (databases : List (String × String))
    (fsExists : String → Bool) (tables : List String)
    (database_name db_path : String)
    (hdb : databases.lookup database_name = some db_path)
    (hfs : fsExists db_path = true) :
    (∀ t ∈ tables.filter (fun t => !(pyStartsWith t "MSys")),
      pyStartsWith t "MSys" = false) ∧
    (∀ t ∈ tables, pyStartsWith t "MSys" = false →
      t ∈ tables.filter (fun t => !(pyStartsWith t "MSys"))) ∧
    (tables.filter (fun t => !(pyStartsWith t "MSys")) ≠ [] →
      AccessDb.list_tables databases fsExists (DriverOutcome.ok tables) database_name =
        "Tables in database \x27" ++ database_name ++ "\x27:\n" ++
          String.intercalate "\n" (tables.filter (fun t => !(pyStartsWith t "MSys")))) ∧
    (tables.filter (fun t => !(pyStartsWith t "MSys")) ≠ [] →
      AccessSimple.list_tables db_path fsExists (DriverOutcome.ok tables) =
        String.intercalate "\n" (tables.filter (fun t => !(pyStartsWith t "MSys")))) := by
  refine ⟨?_, ?_, ?_, ?_⟩
  · intro t ht
    simpa using (List.mem_filter.mp ht).2
  · intro t ht hmsys
    exact List.mem_filter.mpr ⟨ht, by simp [hmsys]⟩
  · intro hne
    have hnef : (tables.filter (fun t => !(pyStartsWith t "MSys"))).isEmpty = false := by
      cases hfilter : tables.filter (fun t => !(pyStartsWith t "MSys")) with
      | nil => exact absurd hfilter hne
      | cons a as => rfl
    simp [AccessDb.list_tables, get_database_path_ok _ _ _ hdb, hfs, hnef]
  · intro hne
    have hnef : (tables.filter (fun t => !(pyStartsWith t "MSys"))).isEmpty = false := by
      cases hfilter : tables.filter (fun t => !(pyStartsWith t "MSys")) with
      | nil => exact absurd hfilter hne
      | cons a as => rfl
    simp [AccessSimple.list_tables, hfs, hnef]

/-- C5 witness: the driver set `["MSysObjects", "Orders"]` yields exactly
`Orders` in the output. -/
theorem c5_msys_filtered_witness :
    AccessDb.list_tables [("default", "a.mdb")] (fun _ => true)
      (DriverOutcome.ok ["MSysObjects", "Orders"]) "default" =
      "Tables in database \x27default\x27:\n" ++
        String.intercalate "\n"
          (["MSysObjects", "Orders"].filter (fun t => !(pyStartsWith t "MSys"))) :=
  (c5_msys_filtered [("default", "a.mdb")] (fun _ => true) ["MSysObjects", "Orders"]
    "default" "a.mdb" rfl rfl).2.2.1 (by decide)

/-- C6: for a non-empty column list, `describe_table` output is the four
fixed header lines followed by one line per reported column, so the line
list has length `4 + number of columns`; each column line renders
nullability as exactly `"Yes"` or `"No"`.  Both modules. -/
theorem c6_describe_shape (databases : List (String × String))
    (fsExists : String → Bool) (cols : List ColumnInfo)
    (table_name database_name db_path : String)
    (hdb : databases.lookup database_name = some db_path)
    (hfs : fsExists db_path = true)
    (hcols : cols ≠ []) :
    AccessDb.describe_table databases fsExists (DriverOutcome.ok cols)
        table_name database_name =
      String.intercalate "\n"
        (AccessDb.describeHeader table_name database_name ++ cols.map describeColLine) ∧
    (AccessDb.describeHeader table_name database_name).length = 4 ∧
    (AccessDb.describeHeader table_name database_name ++
      cols.map describeColLine).length = 4 + cols.length ∧
    AccessSimple.describe_table db_path fsExists (DriverOutcome.ok cols) table_name =
      String.intercalate "\n"
        (AccessSimple.describeHeader table_name ++ cols.map describeColLine) ∧
    (AccessSimple.describeHeader table_name).length = 4 ∧
    (AccessSimple.describeHeader table_name ++
      cols.map describeColLine).length = 4 + cols.length ∧
    (∀ c : ColumnInfo, describeColLine c =
      c.name ++ " | " ++ c.dataType ++ " | " ++ (if c.nullable then "Yes" else "No")) ∧
    (∀ c : ColumnInfo, (if c.nullable then "Yes" else "No") = "Yes" ∨
      (if c.nullable then "Yes" else "No") = "No") := by
  have hne : cols.isEmpty = false := by
    cases cols with
    | nil => exact absurd rfl hcols
    | cons c cs => rfl
  refine ⟨?_, rfl, ?_, ?_, rfl, ?_, fun c => rfl, ?_⟩
  · simp [AccessDb.describe_table, get_database_path_ok _ _ _ hdb, hfs, hne]
  · simp [AccessDb.describeHeader]
    omega
  · simp [AccessSimple.describe_table, hfs, hne]
  · simp [AccessSimple.describeHeader]
    omega
  · intro c
    cases hc : c.nullable <;> simp [hc]

/-- C6 witness: two concrete columns give the four header lines plus two
column lines, with nullability `Yes` and `No`. -/
theorem c6_describe_shape_witness :
    AccessDb.describe_table [("default", "a.mdb")] (fun _ => true)
      (DriverOutcome.ok [⟨"id", "COUNTER", false⟩, ⟨"note", "VARCHAR", true⟩])
      "Orders" "default" =
      String.intercalate "\n"
        (AccessDb.describeHeader "Orders" "default" ++
          [(⟨"id", "COUNTER", false⟩ : ColumnInfo),
            ⟨"note", "VARCHAR", true⟩].map describeColLine) ∧
    (AccessDb.describeHeader "Orders" "default" ++
      [(⟨"id", "COUNTER", false⟩ : ColumnInfo),
        ⟨"note", "VARCHAR", true⟩].map describeColLine).length = 4 + 2 :=
  ⟨(c6_describe_shape [("default", "a.mdb")] (fun _ => true)
      [⟨"id", "COUNTER", false⟩, ⟨"note", "VARCHAR", true⟩]
      "Orders" "default" "a.mdb" rfl rfl (List.cons_ne_nil _ _)).1,
   (c6_describe_shape [("default", "a.mdb")] (fun _ => true)
      [⟨"id", "COUNTER", false⟩, ⟨"note", "VARCHAR", true⟩]
      "Orders" "default" "a.mdb" rfl rfl (List.cons_ne_nil _ _)).2.2.1⟩

/-- C3: every handler absorbs every error kind into a descriptive string
and never lets it escape (each handler is a total function into
`String`): an unknown database name yields the enumerating message (all
four name-taking handlers); a missing file yields the file-not-found
message (both modules); a `pyodbc.Error` yields the connection/query/
describe error text; any other exception yields the generic error text;
and a failing `pyodbc.drivers()` call is absorbed by
`get_connection_info` as an empty driver list. -/
theorem c3_errors_absorbed (databases : List (String × String))
    (fsExists : String → Bool) (driverT : DriverOutcome (List String))
    (driverQ : DriverOutcome QueryResult) (driverC : DriverOutcome (List ColumnInfo))
    (driversResult : Option (List String))
    (sql table_name u n1 n2 p1 p2 e : String)
    (hu : databases.lookup u = none)
    (h1 : databases.lookup n1 = some p1)
    (h2 : databases.lookup n2 = some p2)
    (hf1 : fsExists p1 = false)
    (hf2 : fsExists p2 = true)
    (hsql : isSelectQuery sql = true) :
    (AccessDb.list_tables databases fsExists driverT u =
      AccessDb.dbNotFoundMsg databases u) ∧
    (AccessDb.query databases fsExists driverQ sql u =
      AccessDb.dbNotFoundMsg databases u) ∧
    (AccessDb.describe_table databases fsExists driverC table_name u =
      AccessDb.dbNotFoundMsg databases u) ∧
    (AccessDb.get_connection_info databases fsExists driversResult u =
      AccessDb.dbNotFoundMsg databases u) ∧
    (AccessDb.list_tables databases fsExists driverT n1 = fileNotFoundMsg p1) ∧
    (AccessDb.query databases fsExists driverQ sql n1 = fileNotFoundMsg p1) ∧
    (AccessDb.describe_table databases fsExists driverC table_name n1 =
      fileNotFoundMsg p1) ∧
    (AccessSimple.list_tables p1 fsExists driverT = fileNotFoundMsg p1) ∧
    (AccessSimple.query p1 fsExists driverQ sql = fileNotFoundMsg p1) ∧
    (AccessSimple.describe_table p1 fsExists driverC table_name =
      fileNotFoundMsg p1) ∧
    (AccessDb.list_tables databases fsExists (DriverOutcome.pyodbcError e) n2 =
      AccessDb.connectErrMsg n2 e) ∧
    (AccessDb.query databases fsExists (DriverOutcome.pyodbcError e) sql n2 =
      queryErrMsg e) ∧
    (AccessDb.describe_table databases fsExists (DriverOutcome.pyodbcError e)
        table_name n2 = describeErrMsg e) ∧
    (AccessSimple.list_tables p2 fsExists (DriverOutcome.pyodbcError e) =
      (if strContains e "IM002"
        then ("Error connecting to database: " ++ e) ++ imAdvisory
        else "Error connecting to database: " ++ e)) ∧
    (AccessSimple.query p2 fsExists (DriverOutcome.pyodbcError e) sql =
      queryErrMsg e) ∧
    (AccessSimple.describe_table p2 fsExists (DriverOutcome.pyodbcError e)
        table_name = describeErrMsg e) ∧
    (AccessDb.list_tables databases fsExists (DriverOutcome.otherError e) n2 =
      "Error listing tables: " ++ e) ∧
    (AccessDb.query databases fsExists (DriverOutcome.otherError e) sql n2 =
      "Error executing query: " ++ e) ∧
    (AccessDb.describe_table databases fsExists (DriverOutcome.otherError e)
        table_name n2 = "Error describing table: " ++ e) ∧
    (AccessSimple.list_tables p2 fsExists (DriverOutcome.otherError e) =
      "Error listing tables: " ++ e) ∧
    (AccessSimple.query p2 fsExists (DriverOutcome.otherError e) sql =
      "Error executing query: " ++ e) ∧
    (AccessSimple.describe_table p2 fsExists (DriverOutcome.otherError e)
        table_name = "Error describing table: " ++ e) ∧
    (AccessDb.get_connection_info databases fsExists none n2 =
      AccessDb.get_connection_info databases fsExists (some []) n2) ∧
    (AccessSimple.get_connection_info p2 fsExists none =
      AccessSimple.get_connection_info p2 fsExists (some [])) := by
  refine ⟨?_, ?_, ?_, ?_, ?_, ?_, ?_, ?_, ?_, ?_, ?_, ?_, ?_, ?_, ?_, ?_, ?_, ?_,
    ?_, ?_, ?_, ?_, rfl, rfl⟩ <;>
    simp [AccessDb.list_tables, AccessDb.query, AccessDb.describe_table,
      AccessDb.get_connection_info, AccessDb.runSelectQuery,
      AccessSimple.list_tables, AccessSimple.query, AccessSimple.describe_table,
      AccessSimple.runSelectQuery,
      get_database_path_err _ _ hu, get_database_path_ok _ _ _ h1,
      get_database_path_ok _ _ _ h2, hf1, hf2, hsql, AccessDb.connectErrMsg]

/-- C3 witness: on a concrete registry with one broken and one working
entry, the unknown-name, missing-file, driver-error and generic-error
cases each come back as the corresponding string. -/
theorem c3_errors_absorbed_witness :
    AccessDb.list_tables [("broken", "missing.mdb"), ("good", "ok.mdb")]
      (fun p => p == "ok.mdb") (DriverOutcome.ok []) "nope" =
      AccessDb.dbNotFoundMsg [("broken", "missing.mdb"), ("good", "ok.mdb")] "nope" ∧
    AccessDb.query [("broken", "missing.mdb"), ("good", "ok.mdb")]
      (fun p => p == "ok.mdb") (DriverOutcome.ok ⟨none, []⟩) "SELECT 1" "broken" =
      fileNotFoundMsg "missing.mdb" ∧
    AccessDb.query [("broken", "missing.mdb"), ("good", "ok.mdb")]
      (fun p => p == "ok.mdb") (DriverOutcome.pyodbcError "boom") "SELECT 1" "good" =
      queryErrMsg "boom" ∧
    AccessDb.describe_table [("broken", "missing.mdb"), ("good", "ok.mdb")]
      (fun p => p == "ok.mdb") (DriverOutcome.otherError "oops") "t" "good" =
      "Error describing table: " ++ "oops" := by
  have h := c3_errors_absorbed [("broken", "missing.mdb"), ("good", "ok.mdb")]
    (fun p => p == "ok.mdb") (DriverOutcome.ok []) (DriverOutcome.ok ⟨none, []⟩)
    (DriverOutcome.ok []) none "SELECT 1" "t" "nope" "broken" "good"
    "missing.mdb" "ok.mdb" "boom" rfl rfl rfl rfl rfl rfl
  have h2 := c3_errors_absorbed [("broken", "missing.mdb"), ("good", "ok.mdb")]
    (fun p => p == "ok.mdb") (DriverOutcome.ok []) (DriverOutcome.ok ⟨none, []⟩)
    (DriverOutcome.ok []) none "SELECT 1" "t" "nope" "broken" "good"
    "missing.mdb" "ok.mdb" "oops" rfl rfl rfl rfl rfl rfl
  exact ⟨h.1, h.2.2.2.2.2.1, h.2.2.2.2.2.2.2.2.2.2.2.1,
    h2.2.2.2.2.2.2.2.2.2.2.2.2.2.2.2.2.2.2.1⟩

/-- C7 counterexample: a `pyodbc.Error` whose text contains `42S02`
reaches `list_tables` untouched by any advisory — the table-not-found
advisory text is absent from the returned string, so the claim that all
three driver-calling handlers special-case `42S02` is false. -/
theorem c7_counterexample :
    AccessDb.list_tables [("default", "p.mdb")] (fun _ => true)
      (DriverOutcome.pyodbcError "ERROR [42S02] missing table") "default" =
      "Error connecting to database \x27default\x27: ERROR [42S02] missing table" ∧
    strContains
      "Error connecting to database \x27default\x27: ERROR [42S02] missing table"
      "The table referenced in your query does not exist" = false := by
  exact ⟨by decide, by decide⟩

/-- C7 amended: all three driver-calling handlers surface a driver-level
failure as an error string, and all three append the driver-not-installed
advisory when the error text contains `IM002`; the table-not-found
advisory for `42S02` is appended by `query` only — `list_tables` and
`describe_table` have no `42S02` case.  Both modules. -/
theorem c7_amended (databases : List (String × String))
    (fsExists : String → Bool) (e sql table_name database_name db_path : String)
    (hdb : databases.lookup database_name = some db_path)
    (hfs : fsExists db_path = true)
    (hsql : isSelectQuery sql = true) :
    (AccessDb.list_tables databases fsExists (DriverOutcome.pyodbcError e)
        database_name =
      (if strContains e "IM002"
        then ("Error connecting to database \x27" ++ database_name ++ "\x27: " ++ e) ++
          imAdvisory
        else "Error connecting to database \x27" ++ database_name ++ "\x27: " ++ e)) ∧
    (AccessDb.query databases fsExists (DriverOutcome.pyodbcError e)
        sql database_name =
      (if strContains e "IM002" then ("Error executing query: " ++ e) ++ imAdvisory
        else if strContains e "42S02" then ("Error executing query: " ++ e) ++ tableAdvisory
        else "Error executing query: " ++ e)) ∧
    (AccessDb.describe_table databases fsExists (DriverOutcome.pyodbcError e)
        table_name database_name =
      (if strContains e "IM002" then ("Error describing table: " ++ e) ++ imAdvisory
        else "Error describing table: " ++ e)) ∧
    (AccessSimple.list_tables db_path fsExists (DriverOutcome.pyodbcError e) =
      (if strContains e "IM002"
        then ("Error connecting to database: " ++ e) ++ imAdvisory
        else "Error connecting to database: " ++ e)) ∧
    (AccessSimple.query db_path fsExists (DriverOutcome.pyodbcError e) sql =
      (if strContains e "IM002" then ("Error executing query: " ++ e) ++ imAdvisory
        else if strContains e "42S02" then ("Error executing query: " ++ e) ++ tableAdvisory
        else "Error executing query: " ++ e)) ∧
    (AccessSimple.describe_table db_path fsExists (DriverOutcome.pyodbcError e)
        table_name =
      (if strContains e "IM002" then ("Error describing table: " ++ e) ++ imAdvisory
        else "Error describing table: " ++ e)) := by
  refine ⟨?_, ?_, ?_, ?_, ?_, ?_⟩ <;>
    simp [AccessDb.list_tables, AccessDb.query, AccessDb.describe_table,
      AccessDb.runSelectQuery, AccessSimple.list_tables, AccessSimple.query,
      AccessSimple.describe_table, AccessSimple.runSelectQuery,
      AccessDb.connectErrMsg, queryErrMsg, describeErrMsg,
      get_database_path_ok _ _ _ hdb, hfs, hsql]

/-- C7 amended witness: for the same `42S02` error text, `query` appends
the table-not-found advisory while `list_tables` returns the bare error
string. -/
theorem c7_amended_witness :
    AccessDb.query [("default", "p.mdb")] (fun _ => true)
      (DriverOutcome.pyodbcError "ERROR [42S02] missing table") "SELECT 1" "default" =
      ("Error executing query: " ++ "ERROR [42S02] missing table") ++ tableAdvisory ∧
    AccessDb.list_tables [("default", "p.mdb")] (fun _ => true)
      (DriverOutcome.pyodbcError "ERROR [42S02] missing table") "default" =
      "Error connecting to database \x27" ++ "default" ++ "\x27: " ++
        "ERROR [42S02] missing table" := by
  have h := c7_amended [("default", "p.mdb")] (fun _ => true)
    "ERROR [42S02] missing table" "SELECT 1" "t" "default" "p.mdb" rfl rfl rfl
  refine ⟨?_, ?_⟩
  · rw [h.2.1]; decide
  · rw [h.1]; decide

/-- C8 counterexample: with `ACCESS_DB_CONFIG` present but malformed
(the JSON parse raises) and `ACCESS_DB_PATH` set to a custom path, the
registry gets the hardcoded fallback path, not the custom one — the
claim that a malformed structured variable falls back to the single-path
variable is false. -/
theorem c8_counterexample :
    AccessDb.initDatabases
      (fun k => if k = "ACCESS_DB_CONFIG" then some "not json"
        else if k = "ACCESS_DB_PATH" then some "C:\\custom\\db.mdb" else none)
      (fun _ => none) =
      [("default", AccessDb.default_db_path)] ∧
    AccessDb.default_db_path ≠ "C:\\custom\\db.mdb" := by
  exact ⟨by decide, by decide⟩

/-- C8 amended: when the structured variable is absent, empty, or parses
to an empty mapping, the registry is populated from the single-path
variable under `"default"` (hardcoded path only when that too is absent);
when it is present, non-empty and malformed, the `except` branch installs
the hardcoded path directly, ignoring the single-path variable; when it
parses to a non-empty mapping, that mapping is the registry. -/
theorem c8_amended (env : String → Option String)
    (jsonItems : String → Option (List (String × String))) :
    (env "ACCESS_DB_CONFIG" = none →
      AccessDb.initDatabases env jsonItems =
        [("default", (env "ACCESS_DB_PATH").getD AccessDb.default_db_path)]) ∧
    (∀ s : String, env "ACCESS_DB_CONFIG" = some s → s ≠ "" → jsonItems s = none →
      AccessDb.initDatabases env jsonItems =
        [("default", AccessDb.default_db_path)]) ∧
    (∀ s : String, ∀ entries : List (String × String),
      env "ACCESS_DB_CONFIG" = some s → s ≠ "" → jsonItems s = some entries →
      entries ≠ [] → AccessDb.initDatabases env jsonItems = entries) ∧
    (∀ s : String, env "ACCESS_DB_CONFIG" = some s → s ≠ "" → jsonItems s = some [] →
      AccessDb.initDatabases env jsonItems =
        [("default", (env "ACCESS_DB_PATH").getD AccessDb.default_db_path)]) ∧
    (env "ACCESS_DB_CONFIG" = some "" →
      AccessDb.initDatabases env jsonItems =
        [("default", (env "ACCESS_DB_PATH").getD AccessDb.default_db_path)]) := by
  refine ⟨?_, ?_, ?_, ?_, ?_⟩
  · intro hc
    simp [AccessDb.initDatabases, AccessDb.singleFallback, hc]
  · intro s hc hs hj
    simp [AccessDb.initDatabases, AccessDb.singleFallback, hc, hs, hj]
  · intro s entries hc hs hj hent
    have hne : entries.isEmpty = false := by
      cases entries with
      | nil => exact absurd rfl hent
      | cons a as => rfl
    simp [AccessDb.initDatabases, AccessDb.singleFallback, hc, hs, hj, hne]
  · intro s hc hs hj
    simp [AccessDb.initDatabases, AccessDb.singleFallback, hc, hs, hj]
  · intro hc
    simp [AccessDb.initDatabases, AccessDb.singleFallback, hc]

/-- C8 amended witness: with the structured variable absent the registry
takes the single-path variable, and with it malformed the registry takes
the hardcoded path even though the single-path variable is set. -/
theorem c8_amended_witness :
    AccessDb.initDatabases
      (fun k => if k = "ACCESS_DB_PATH" then some "p.mdb" else none)
      (fun _ => none) = [("default", "p.mdb")] ∧
    AccessDb.initDatabases
      (fun k => if k = "ACCESS_DB_CONFIG" then some "not json"
        else if k = "ACCESS_DB_PATH" then some "p.mdb" else none)
      (fun _ => none) = [("default", AccessDb.default_db_path)] := by
  refine ⟨?_, ?_⟩
  · have h := (c8_amended
      (fun k => if k = "ACCESS_DB_PATH" then some "p.mdb" else none)
      (fun _ => none)).1 (by decide)
    rw [h]; decide
  · exact (c8_amended
      (fun k => if k = "ACCESS_DB_CONFIG" then some "not json"
        else if k = "ACCESS_DB_PATH" then some "p.mdb" else none)
      (fun _ => none)).2.1 "not json" (by decide) (by decide) rfl

/-- C9 counterexample: on the registry of the claim, with `/path/a.mdb`
present and `/path/b.mdb` absent, `list_databases` returns a string of
four lines (three newline characters), not two — a two-line header
precedes the two entry lines. -/
theorem c9_counterexample :
    AccessDb.list_databases [("default", "/path/a.mdb"), ("qa", "/path/b.mdb")]
      (fun p => p == "/path/a.mdb") =
      "Available Databases:\n-------------------\ndefault: /path/a.mdb [✓]\nqa: /path/b.mdb [✗]" ∧
    ((AccessDb.list_databases [("default", "/path/a.mdb"), ("qa", "/path/b.mdb")]
      (fun p => p == "/path/a.mdb")).toList.count '\n') = 3 := by
  exact ⟨by decide, by decide⟩

/-- C9 amended: on the registry of the claim, `list_databases` returns
the fixed two-line header followed by one line per entry, each annotated
with an existence marker matching the filesystem state of that entry's
path. -/
theorem c9_amended (fsExists : String → Bool) :
    AccessDb.list_databases [("default", "/path/a.mdb"), ("qa", "/path/b.mdb")]
      fsExists =
      String.intercalate "\n"
        ["Available Databases:", "-------------------",
          "default: /path/a.mdb [" ++ (if fsExists "/path/a.mdb" then "✓" else "✗") ++ "]",
          "qa: /path/b.mdb [" ++ (if fsExists "/path/b.mdb" then "✓" else "✗") ++ "]"] := by
  cases hfa : fsExists "/path/a.mdb" <;> cases hfb : fsExists "/path/b.mdb" <;>
    simp [AccessDb.list_databases, hfa, hfb]
